import Mathlib

/-!
Verification development for the `financial-agent` repository.

The repository's own procedural logic is shallowly embedded here:

* `src/financial_advisor/sub_agents/data_analyst.py` — `_error_response`,
  `get_company_info`, `get_stock_price`;
* `src/financial_advisor/sub_agents/financial_analyst.py` —
  `get_income_statement`, `get_balance_sheet`, `get_cash_flow`;
* `src/tools.py` — `_clean_markdown`, `web_search_tool`;
* `src/financial_advisor/agent.py` — `save_advice_report`.

External collaborators (the yfinance market-data provider, the Firecrawl
search client, the agent runtime's state and artifact store) are passed in
as explicit parameters: a provider interaction that can raise is an
`Except String` value whose `error` constructor carries the exception
message.  Prices are modelled as rationals; a pandas `NaN` cell is `none`.
Python code that catches exceptions returns a plain result structure;
Python code that lets exceptions escape returns `Except String`.
-/

/-- Price-history data frame as used by `get_stock_price`: the `Close`
column when present (`none` models a frame without a `Close` column), each
cell an optional rational (`none` models `NaN`), plus the row count of a
frame that lacks a `Close` column. -/
structure StockHistory where
  closeCol : Option (List (Option ℚ))
  otherRows : Nat := 0
  deriving DecidableEq, Repr

/-- Number of rows of the frame (a frame with a `Close` column has one cell
per row). -/
def StockHistory.numRows (h : StockHistory) : Nat :=
  match h.closeCol with
  | some l => l.length
  | none => h.otherRows

/-- Embeds `DataFrame.empty`: the frame has no rows. -/
def StockHistory.isEmpty (h : StockHistory) : Bool :=
  h.numRows == 0

/-- Embeds `Series.dropna()`: the non-null cells of a column, in order. -/
def dropna (l : List (Option ℚ)) : List ℚ :=
  l.filterMap id

/-- The slice of the yfinance `info` mapping read by `get_stock_price`:
`info.get("currentPrice")`.  `none` models an absent key (or an empty
`info` mapping). -/
structure PriceInfo where
  currentPrice : Option ℚ
  deriving DecidableEq, Repr

/-- The `price_summary` mapping built by `get_stock_price` when the `Close`
column exists and has a non-null cell. -/
structure PriceSummary where
  latest_close : ℚ
  change_pct : Option ℚ
  period_candles : Nat
  deriving DecidableEq, Repr

/-- Return value of `get_stock_price`: the union of the success-shape keys
and the failure-shape keys, absent keys being `none`. -/
structure StockPriceResult where
  ticker : String
  success : Bool
  error : Option String := none
  history : Option StockHistory := none
  current_price : Option ℚ := none
  price_summary : Option PriceSummary := none
  period : Option String := none
  deriving DecidableEq, Repr

/-- Return value of `get_company_info`. -/
structure CompanyInfoResult where
  ticker : String
  success : Bool
  error : Option String := none
  company_name : Option String := none
  industry : Option String := none
  sector : Option String := none
  deriving DecidableEq, Repr

/-- Embeds `_error_response` of `data_analyst.py` at the shape returned by
`get_company_info`. -/
def _error_response (ticker message : String) : CompanyInfoResult :=
  { ticker := ticker, success := false, error := some message }

/-- Embeds `_error_response` of `data_analyst.py` at the shape returned by
`get_stock_price` (in Python both are the same three-key dict). -/
def _stock_error (ticker message : String) : StockPriceResult :=
  { ticker := ticker, success := false, error := some message }

/-- Embeds `get_company_info` of `data_analyst.py`.  The provider argument
models `yf.Ticker(ticker); stock.info or {}`: `Except.error` is a raised
provider exception (message attached), `Except.ok` the `info` dict as an
association list (`[]` covers both `None` and an empty dict). -/
def get_company_info (ticker : String)
    (provider : Except String (List (String × String))) : CompanyInfoResult :=
  match provider with
  | .error exc => _error_response ticker ("회사 정보 조회 실패: " ++ exc)
  | .ok info =>
    if info.isEmpty then
      _error_response ticker "회사 정보를 찾을 수 없습니다."
    else
      { ticker := ticker
        success := true
        company_name := some ((info.lookup "longName").getD "NA")
        industry := some ((info.lookup "industry").getD "NA")
        sector := some ((info.lookup "sector").getD "NA") }

/-- Embeds `get_stock_price` of `data_analyst.py`.  The provider argument
models the `try` block `yf.Ticker / stock.info or {} / stock.history(period)`:
`Except.error` is a raised provider exception, `Except.ok` carries the
`info` slice and the (possibly absent) history frame.  The serialized
`history.to_json()` payload is represented by the frame itself. -/
def get_stock_price (ticker : String) (period : String)
    (provider : Except String (PriceInfo × Option StockHistory)) :
    StockPriceResult :=
  match provider with
  | .error exc => _stock_error ticker ("주가 데이터 조회 실패: " ++ exc)
  | .ok (info, hist) =>
    match hist with
    | none => _stock_error ticker (period ++ " 기간에 대한 주가 이력이 없습니다.")
    | some h =>
      if h.isEmpty then
        _stock_error ticker (period ++ " 기간에 대한 주가 이력이 없습니다.")
      else
        let current_price : Option ℚ :=
          match info.currentPrice with
          | some cp => some cp
          | none =>
            match h.closeCol with
            | none => none
            | some closes => (dropna closes).getLast?
        let price_summary : Option PriceSummary :=
          match h.closeCol with
          | none => none
          | some closes =>
            match dropna closes with
            | [] => none
            | c :: cs =>
              let recent_close := (c :: cs).getLastD 0
              let first_close := c
              let change_pct : Option ℚ :=
                if first_close = 0 then none
                else some ((recent_close - first_close) / first_close * 100)
              some { latest_close := recent_close
                     change_pct := change_pct
                     period_candles := closes.length }
        { ticker := ticker
          success := true
          history := some h
          current_price := current_price
          price_summary := price_summary
          period := some period }

/-- Return value of `get_income_statement`. -/
structure IncomeStatementResult where
  ticker : String
  success : Bool
  income_statement : String
  deriving DecidableEq, Repr

/-- Return value of `get_balance_sheet`. -/
structure BalanceSheetResult where
  ticker : String
  success : Bool
  balance_sheet : String
  deriving DecidableEq, Repr

/-- Return value of `get_cash_flow`. -/
structure CashFlowResult where
  ticker : String
  success : Bool
  cash_flow : String
  deriving DecidableEq, Repr

/-- Embeds `get_income_statement` of `financial_analyst.py`.  The provider
argument models `yf.Ticker(ticker).income_stmt.to_json()`: either a raised
provider exception or the serialized table string.  The function body has
no `try`, so the embedding returns `Except`: a provider exception
propagates to the caller unchanged. -/
def get_income_statement (ticker : String)
    (provider : Except String String) : Except String IncomeStatementResult :=
  match provider with
  | .error exc => .error exc
  | .ok table =>
    .ok { ticker := ticker, success := true, income_statement := table }

/-- Embeds `get_balance_sheet` of `financial_analyst.py`; same modelling as
`get_income_statement`, over `stock.balance_sheet.to_json()`. -/
def get_balance_sheet (ticker : String)
    (provider : Except String String) : Except String BalanceSheetResult :=
  match provider with
  | .error exc => .error exc
  | .ok table =>
    .ok { ticker := ticker, success := true, balance_sheet := table }

/-- Embeds `get_cash_flow` of `financial_analyst.py`; same modelling as
`get_income_statement`, over `stock.cash_flow.to_json()`. -/
def get_cash_flow (ticker : String)
    (provider : Except String String) : Except String CashFlowResult :=
  match provider with
  | .error exc => .error exc
  | .ok table =>
    .ok { ticker := ticker, success := true, cash_flow := table }

/-- The ASCII whitespace class used by the regex `\s` and by `str.strip()`
(the inputs of interest are ASCII-spaced, so Unicode-only space characters
are not modelled). -/
def isPyWs (c : Char) : Bool :=
  c = ' ' || c = '\t' || c = '\n' || c = '\r' || c = '\x0b' || c = '\x0c'

/-- Embeds `re.sub(r"\\+|\n+", " ", text)`: each maximal run of
backslashes, and each maximal run of newlines, becomes a single space. -/
def collapseEscapes : List Char → List Char
  | [] => []
  | [c] => if c = '\\' || c = '\n' then [' '] else [c]
  | c :: d :: rest =>
    if (c = '\\' && d = '\\') || (c = '\n' && d = '\n') then
      collapseEscapes (d :: rest)
    else if c = '\\' || c = '\n' then
      ' ' :: collapseEscapes (d :: rest)
    else
      c :: collapseEscapes (d :: rest)

/-- Embeds `str.strip()`: drop leading and trailing whitespace. -/
def pyStrip (cs : List Char) : List Char :=
  ((cs.dropWhile isPyWs).reverse.dropWhile isPyWs).reverse

/-- Does the needle occur at the head of the haystack? -/
def startsWithL : List Char → List Char → Bool
  | [], _ => true
  | _ :: _, [] => false
  | c :: n, d :: h => c == d && startsWithL n h

/-- Tries the regex alternative `\[[^\]]+\]\([^\)]+\)` at the head of the
input; on a match, returns the input with the matched span removed. -/
def tryLink (cs : List Char) : Option (List Char) :=
  match cs with
  | '[' :: rest =>
    let inner := rest.takeWhile (fun c => c != ']')
    if inner.isEmpty then none
    else
      match rest.drop inner.length with
      | ']' :: '(' :: rest2 =>
        let url := rest2.takeWhile (fun c => c != ')')
        if url.isEmpty then none
        else
          match rest2.drop url.length with
          | ')' :: rest3 => some rest3
          | _ => none
      | _ => none
  | _ => none

/-- Tries the regex alternative `https?://[^\s]+` at the head of the input;
on a match, returns the input with the matched span removed. -/
def tryUrl (cs : List Char) : Option (List Char) :=
  let rest? : Option (List Char) :=
    if startsWithL "https://".toList cs then some (cs.drop 8)
    else if startsWithL "http://".toList cs then some (cs.drop 7)
    else none
  match rest? with
  | none => none
  | some r =>
    let body := r.takeWhile (fun c => !(isPyWs c))
    if body.isEmpty then none else some (r.drop body.length)

/-- Left-to-right scan of `re.sub(r"\[[^\]]+\]\([^\)]+\)|https?://[^\s]+", "", s)`:
at each position try the link alternative, then the URL alternative; a
match is deleted and scanning resumes after it.  The fuel argument bounds
the recursion; every step consumes at least one character, so fuel equal to
the input length is sufficient. -/
def stripLinksAux : Nat → List Char → List Char
  | _, [] => []
  | 0, cs => cs
  | n + 1, c :: rest =>
    match tryLink (c :: rest) with
    | some r => stripLinksAux n r
    | none =>
      match tryUrl (c :: rest) with
      | some r => stripLinksAux n r
      | none => c :: stripLinksAux n rest

/-- Embeds `_clean_markdown` of `tools.py`: collapse backslash and newline
runs to spaces, strip, then delete markdown hyperlinks and bare URLs. -/
def _clean_markdown (text : String) : String :=
  let cleaned := pyStrip (collapseEscapes text.toList)
  String.mk (stripLinksAux cleaned.length cleaned)

/-- Python string truthiness as a filter: `none` for an absent or empty
string, the string otherwise. -/
def truthyStr : Option String → Option String
  | none => none
  | some s => if s = "" then none else some s

/-- One element of `response.data` from the Firecrawl client: the keys read
by `web_search_tool`. -/
structure FcItem where
  title : Option String := none
  url : Option String := none
  markdown : Option String := none
  content : Option String := none
  deriving DecidableEq, Repr

/-- The Firecrawl search response object: `success`, the `error` attribute
(`none` models an absent attribute, in which case `getattr` yields its
default), and `data` (`none` models a `None` or absent list). -/
structure FcResponse where
  success : Bool
  error : Option String := none
  data : Option (List FcItem) := none
  deriving DecidableEq, Repr

/-- Outcome of the `app.search(...)` call: a raised exception (message
attached) or a response object. -/
inductive FcOutcome where
  | raises (msg : String)
  | returns (r : FcResponse)
  deriving DecidableEq, Repr

/-- One element of the list returned by `web_search_tool`; every branch of
the Python function builds dicts with exactly the keys `title`, `url`,
`markdown`. -/
structure SearchChunk where
  title : Option String
  url : Option String
  markdown : Option String
  deriving DecidableEq, Repr

/-- Embeds `query or request or kwargs.get("query") or kwargs.get("q")`
with Python truthiness (an empty string falls through). -/
def resolveQuery (query request : Option String)
    (kwargs : List (String × String)) : Option String :=
  (truthyStr query).orElse fun _ =>
    (truthyStr request).orElse fun _ =>
      (truthyStr (kwargs.lookup "query")).orElse fun _ =>
        truthyStr (kwargs.lookup "q")

/-- Embeds `result.get("markdown") or result.get("content") or ""`. -/
def rawBody (it : FcItem) : String :=
  (((truthyStr it.markdown).orElse fun _ => truthyStr it.content).getD "")

/-- Embeds the result loop of `web_search_tool`: skip items whose body is
falsy, otherwise keep `{title, url, markdown := _clean_markdown body}`. -/
def cleanChunks (items : List FcItem) : List SearchChunk :=
  items.filterMap fun it =>
    let markdown := rawBody it
    if markdown = "" then none
    else some { title := it.title, url := it.url,
                markdown := some (_clean_markdown markdown) }

/-- Embeds `web_search_tool` of `tools.py`.  The `outcome` argument models
the `app.search(...)` provider call; the query-resolution branch returns
before that call is reached, which the embedding reflects by ignoring
`outcome` there. -/
def web_search_tool (query request : Option String)
    (kwargs : List (String × String)) (outcome : FcOutcome) :
    List SearchChunk :=
  match resolveQuery query request kwargs with
  | none =>
    [{ title := some "검색어 오류", url := some "",
       markdown := some "검색어(query)가 제공되지 않았습니다." }]
  | some _ =>
    match outcome with
    | .raises exc =>
      [{ title := some "검색 실패", url := some "",
         markdown := some ("Firecrawl 검색 실패: " ++ exc) }]
    | .returns r =>
      if !r.success then
        [{ title := some "검색 실패", url := some "",
           markdown := some (r.error.getD "검색 응답 실패") }]
      else
        let cleaned_chunks := cleanChunks (r.data.getD [])
        if cleaned_chunks.isEmpty then
          [{ title := some "검색 결과 없음", url := some "",
             markdown := some "유의미한 검색 결과를 찾지 못했습니다." }]
        else
          cleaned_chunks

/-- Embeds Python f-string interpolation of a possibly absent state value:
an absent entry is the value `None`, which renders as the text `None`. -/
def renderVal : Option String → String
  | none => "None"
  | some s => s

/-- Embeds the `report` f-string literal of `save_advice_report` in
`src/financial_advisor/agent.py`, with the exact whitespace of the source
(including the eight trailing spaces on the blank line before the news
heading). -/
def composeReport (summary sector dataR financial news : String) : String :=
  "\n        # 요약 및 투자 조언\n        " ++ summary ++
  "\n\n        ## 섹터 애널리스트 리포트\n        " ++ sector ++
  "\n\n        ## 데이터 애널리스트 리포트\n        " ++ dataR ++
  "\n\n        ## 재무 애널리스트 리포트\n        " ++ financial ++
  "\n        \n        ## 뉴스 애널리스트 리포트\n        " ++ news ++
  "\n    "

/-- The artifact handed to `tool_context.save_artifact`: filename, the
`types.Blob` MIME type, and the UTF-8 payload. -/
structure Artifact where
  filename : String
  mime_type : String
  data : ByteArray

/-- The dict returned by `save_advice_report` on its success path. -/
structure SaveResult where
  success : Bool
  deriving DecidableEq, Repr

/-- Everything observable about one call of `save_advice_report`: the shared
state after the call, the artifact handed to the store, and either the
returned dict or the exception propagated out of `await save_artifact`. -/
structure SaveOutcome where
  state : String → Option String
  artifact : Artifact
  result : Except String SaveResult

/-- Embeds `save_advice_report` of `src/financial_advisor/agent.py`.  The
shared `tool_context.state` is a key-value mapping; `persist` models the
outcome of `await tool_context.save_artifact(filename, artifact)` (`ok` on
success, `error` carrying the exception the store raised).  The state write
`state["report"] = report` happens before the await, so the returned state
reflects it in both outcomes. -/
def save_advice_report (state : String → Option String)
    (summary ticker : String) (persist : Except String Unit) : SaveOutcome :=
  let data_analyst_result := state "data_analyst_result"
  let financial_analyst_result := state "financial_analyst_result"
  let news_analyst_result := state "news_analyst_result"
  let sector_analyst_result := state "sector_analyst_result"
  let report := composeReport summary
    (renderVal sector_analyst_result)
    (renderVal data_analyst_result)
    (renderVal financial_analyst_result)
    (renderVal news_analyst_result)
  let state2 : String → Option String :=
    fun k => if k = "report" then some report else state k
  let filename := ticker ++ "_investment_advice.md"
  let artifact : Artifact :=
    { filename := filename, mime_type := "text/markdown",
      data := report.toUTF8 }
  { state := state2
    artifact := artifact
    result :=
      match persist with
      | .ok _ => .ok { success := true }
      | .error exc => .error exc }

/-- Searches the haystack for the first occurrence of the needle; on
success returns the haystack remainder just after that occurrence. -/
def findAfter (n : List Char) : List Char → Option (List Char)
  | [] => if startsWithL n [] then some [] else none
  | c :: h =>
    if startsWithL n (c :: h) then some ((c :: h).drop n.length)
    else findAfter n h

/-- Do the given parts all occur in the haystack, in order and without
overlap? -/
def inOrder : List (List Char) → List Char → Bool
  | [], _ => true
  | p :: ps, hay =>
    match findAfter p hay with
    | none => false
    | some rest => inOrder ps rest

/-- Substring occurrence as a Bool, via `findAfter`. -/
def hasSub (n hay : List Char) : Bool :=
  (findAfter n hay).isSome

theorem toList_append (s t : String) : (s ++ t).toList = s.toList ++ t.toList :=
  String.data_append s t

theorem startsWithL_append (n rest : List Char) :
    startsWithL n (n ++ rest) = true := by
  induction n with
  | nil => rfl
  | cons c t ih => simp [startsWithL, ih]

theorem findAfter_drop_ge (n : List Char) :
    ∀ (h r : List Char), findAfter n h = some r →
      ∃ k, n.length ≤ k ∧ r = h.drop k := by
  intro h
  induction h with
  | nil =>
    intro r hr
    cases n with
    | nil =>
      simp [findAfter, startsWithL] at hr
      exact ⟨0, by simp, by simp [hr.symm]⟩
    | cons c t => simp [findAfter, startsWithL] at hr
  | cons c t ih =>
    intro r hr
    unfold findAfter at hr
    by_cases hs : startsWithL n (c :: t) = true
    · rw [if_pos hs] at hr
      exact ⟨n.length, le_refl _, (Option.some_inj.mp hr).symm⟩
    · rw [if_neg hs] at hr
      obtain ⟨k, hk, hrk⟩ := ih r hr
      exact ⟨k + 1, by omega, by simp [hrk]⟩

theorem findAfter_mono (n : List Char) :
    ∀ (big h r : List Char), h <:+ big → findAfter n h = some r →
      ∃ r2, findAfter n big = some r2 ∧ r <:+ r2 := by
  intro big
  induction big with
  | nil =>
    intro h r hsub hf
    have : h = [] := List.suffix_nil.mp hsub
    subst this
    exact ⟨r, hf, List.suffix_refl r⟩
  | cons c t ih =>
    intro h r hsub hf
    rcases List.suffix_cons_iff.mp hsub with heq | hsub2
    · subst heq
      exact ⟨r, hf, List.suffix_refl r⟩
    · obtain ⟨r2, hf2, hr2⟩ := ih h r hsub2 hf
      unfold findAfter
      by_cases hs : startsWithL n (c :: t) = true
      · rw [if_pos hs]
        refine ⟨(c :: t).drop n.length, rfl, ?_⟩
        obtain ⟨k, hk, hrk⟩ := findAfter_drop_ge n t r2 hf2
        refine hr2.trans ?_
        have h1 : r2 = ((c :: t).drop n.length).drop (k + 1 - n.length) := by
          rw [List.drop_drop]
          have h2 : n.length + (k + 1 - n.length) = k + 1 := by omega
          rw [h2, List.drop_succ_cons, hrk]
        rw [h1]
        exact List.drop_suffix _ _
      · rw [if_neg hs]
        exact ⟨r2, hf2, hr2⟩

theorem findAfter_self (n rest : List Char) :
    findAfter n (n ++ rest) = some rest := by
  cases hn : n ++ rest with
  | nil =>
    have h0 := List.append_eq_nil.mp hn
    rw [h0.1, h0.2]
    rfl
  | cons c t =>
    unfold findAfter
    rw [← hn, startsWithL_append]
    simp [List.drop_left]

theorem inOrder_mono (ps : List (List Char)) :
    ∀ (hay big : List Char), hay <:+ big → inOrder ps hay = true →
      inOrder ps big = true := by
  induction ps with
  | nil => intro _ _ _ _; rfl
  | cons p ps ih =>
    intro hay big hsub h
    unfold inOrder at h ⊢
    cases hf : findAfter p hay with
    | none => rw [hf] at h; cases h
    | some r =>
      rw [hf] at h
      obtain ⟨r2, hf2, hr2⟩ := findAfter_mono p big hay r hsub hf
      rw [hf2]
      exact ih r r2 hr2 h

theorem inOrder_extend (ps : List (List Char)) (pre hay : List Char)
    (h : inOrder ps hay = true) : inOrder ps (pre ++ hay) = true :=
  inOrder_mono ps hay (pre ++ hay) (List.suffix_append pre hay) h

theorem inOrder_cons_self (p : List Char) (ps : List (List Char))
    (rest : List Char) (h : inOrder ps rest = true) :
    inOrder (p :: ps) (p ++ rest) = true := by
  unfold inOrder
  rw [findAfter_self]
  exact h

/-- C3: `get_income_statement`, `get_balance_sheet` and `get_cash_flow` do
not catch provider exceptions: a raised provider exception propagates to
the caller unchanged, and a successful provider call yields
`{ticker, success := true, <field> := serialized table}`. -/
theorem claim_C3_statements_propagate (t e table : String) :
    get_income_statement t (.error e) = .error e ∧
    get_balance_sheet t (.error e) = .error e ∧
    get_cash_flow t (.error e) = .error e ∧
    get_income_statement t (.ok table) =
      .ok { ticker := t, success := true, income_statement := table } ∧
    get_balance_sheet t (.ok table) =
      .ok { ticker := t, success := true, balance_sheet := table } ∧
    get_cash_flow t (.ok table) =
      .ok { ticker := t, success := true, cash_flow := table } :=
  ⟨rfl, rfl, rfl, rfl, rfl, rfl⟩

/-- C4: `get_company_info` never raises: a raised provider exception or an
empty profile yields `{ticker, success := false, error}` with a non-empty
error string, and otherwise it returns
`{ticker, success := true, company_name, industry, sector}`. -/
theorem claim_C4_company_info_total (t e : String)
    (info : List (String × String)) :
    (get_company_info t (.error e) =
        _error_response t ("회사 정보 조회 실패: " ++ e) ∧
      ∃ m, (get_company_info t (.error e)).error = some m ∧ m.length ≠ 0) ∧
    (get_company_info t (.ok []) =
        _error_response t "회사 정보를 찾을 수 없습니다." ∧
      ∃ m, (get_company_info t (.ok [])).error = some m ∧ m.length ≠ 0) ∧
    (info ≠ [] →
      (get_company_info t (.ok info)).success = true ∧
      (get_company_info t (.ok info)).ticker = t ∧
      (get_company_info t (.ok info)).error = none ∧
      (get_company_info t (.ok info)).company_name.isSome = true ∧
      (get_company_info t (.ok info)).industry.isSome = true ∧
      (get_company_info t (.ok info)).sector.isSome = true) := by
  refine ⟨⟨rfl, ⟨_, rfl, ?_⟩⟩, ⟨rfl, ⟨_, rfl, by decide⟩⟩, fun hne => ?_⟩
  · rw [String.length_append]
    have hp : 0 < ("회사 정보 조회 실패: " : String).length := by decide
    omega
  · cases info with
    | nil => exact absurd rfl hne
    | cons kv l => simp [get_company_info]

/-- C4 witness: a one-entry profile yields the success shape. -/
theorem claim_C4_company_info_total_witness :
    (get_company_info "AAPL" (.ok [("longName", "Apple Inc.")])).success =
      true :=
  ((claim_C4_company_info_total "AAPL" "boom"
      [("longName", "Apple Inc.")]).2.2 (by decide)).1

/-- C5: on the input named by the claim, `_clean_markdown` removes the
markdown hyperlink and the bare URL: the cleaned output is
`"see  and  now"`, which contains neither `http://x.com` nor
`https://y.com` nor any bracket syntax. -/
theorem claim_C5_clean_strips_links :
    _clean_markdown "see [here](http://x.com) and https://y.com now" =
      "see  and  now" ∧
    hasSub "http://x.com".toList
      (_clean_markdown
        "see [here](http://x.com) and https://y.com now").toList = false ∧
    hasSub "https://y.com".toList
      (_clean_markdown
        "see [here](http://x.com) and https://y.com now").toList = false ∧
    (_clean_markdown
        "see [here](http://x.com) and https://y.com now").toList.contains
      '[' = false := by
  decide

/-- C6: for every combination of `query`, `request` and keyword arguments
and every provider outcome, `web_search_tool` returns at least one element
(each element is built with exactly the keys `title`, `url`, `markdown`,
which the `SearchChunk` shape fixes structurally). -/
theorem claim_C6_web_search_nonempty (query request : Option String)
    (kwargs : List (String × String)) (outcome : FcOutcome) :
    1 ≤ (web_search_tool query request kwargs outcome).length := by
  unfold web_search_tool
  cases resolveQuery query request kwargs with
  | none => simp
  | some q =>
    cases outcome with
    | raises e => simp
    | returns r =>
      cases hs : r.success with
      | false => simp [hs]
      | true =>
        simp only [hs, Bool.not_true, Bool.false_eq_true, if_false]
        cases hc : cleanChunks (r.data.getD []) with
        | nil => simp [hc]
        | cons x xs => simp [hc]

/-- C7: when no query resolves from `query`, `request`, `kwargs["query"]`
or `kwargs["q"]`, `web_search_tool` returns the one-element missing-query
sentinel, for every provider outcome (so the provider call is never
consulted) and without raising. -/
theorem claim_C7_missing_query (query request : Option String)
    (kwargs : List (String × String)) (outcome : FcOutcome)
    (h : resolveQuery query request kwargs = none) :
    web_search_tool query request kwargs outcome =
      [{ title := some "검색어 오류", url := some "",
         markdown := some "검색어(query)가 제공되지 않았습니다." }] := by
  unfold web_search_tool
  rw [h]

/-- C7 witness: no arguments at all, with a raising provider. -/
theorem claim_C7_missing_query_witness :
    web_search_tool none none [] (.raises "boom") =
      [{ title := some "검색어 오류", url := some "",
         markdown := some "검색어(query)가 제공되지 않았습니다." }] :=
  claim_C7_missing_query none none [] (.raises "boom") rfl

/-- C9: whenever artifact persistence succeeds, `save_advice_report`
returns `{success := true}`, for every shared state (in particular when any
of the four analyst entries are absent, which render as placeholder text
rather than raising). -/
theorem claim_C9_success_unconditional (state : String → Option String)
    (summary ticker : String) (persist : Except String Unit)
    (h : persist = .ok ()) :
    (save_advice_report state summary ticker persist).result =
      .ok { success := true } := by
  subst h
  rfl

/-- C9 witness: a state with all four analyst entries absent. -/
theorem claim_C9_success_unconditional_witness :
    (save_advice_report (fun _ => none) "Buy" "AAPL" (.ok ())).result =
      .ok { success := true } :=
  claim_C9_success_unconditional (fun _ => none) "Buy" "AAPL" (.ok ()) rfl

/-- C10: `save_advice_report` writes the composed report into shared state
under the key `report`, changes no other key, and when persistence raises,
the exception propagates while the state already holds the new report. -/
theorem claim_C10_state_before_persist (state : String → Option String)
    (summary ticker : String) (persist : Except String Unit) :
    (save_advice_report state summary ticker persist).state "report" =
      some (composeReport summary
        (renderVal (state "sector_analyst_result"))
        (renderVal (state "data_analyst_result"))
        (renderVal (state "financial_analyst_result"))
        (renderVal (state "news_analyst_result"))) ∧
    (∀ k, k ≠ "report" →
      (save_advice_report state summary ticker persist).state k = state k) ∧
    (∀ exc, persist = .error exc →
      (save_advice_report state summary ticker persist).result =
        .error exc) := by
  refine ⟨rfl, fun k hk => ?_, fun exc he => ?_⟩
  · simp only [save_advice_report]
    rw [if_neg hk]
  · subst he
    rfl

/-- C10 witness: with a raising store, the error propagates and the state
write is not rolled back (here probed at an unrelated key). -/
theorem claim_C10_state_before_persist_witness :
    (save_advice_report (fun _ => none) "Buy" "AAPL"
        (.error "boom")).state "other" = none ∧
    (save_advice_report (fun _ => none) "Buy" "AAPL"
        (.error "boom")).result = .error "boom" := by
  have h := claim_C10_state_before_persist (fun _ => none) "Buy" "AAPL"
    (.error "boom")
  exact ⟨h.2.1 "other" (by decide), h.2.2 "boom" rfl⟩

/-- C1 (amended): `get_stock_price` returns `success = false` exactly when
the provider raises or the history is absent or empty; on success,
`current_price` is the provider-reported price when present, else the last
non-null close of the `Close` column (null when there is none); and when
`price_summary` is non-empty, its `period_candles` equals the total number
of rows of the `Close` column, null closes included. -/
theorem claim_C1_stock_price_shape (t period : String)
    (p : Except String (PriceInfo × Option StockHistory)) :
    ((get_stock_price t period p).success = false ↔
      (∃ e, p = .error e) ∨ (∃ i, p = .ok (i, none)) ∨
      (∃ i h, p = .ok (i, some h) ∧ h.isEmpty = true)) ∧
    (∀ i h, p = .ok (i, some h) → h.isEmpty = false →
      (∀ cp, i.currentPrice = some cp →
        (get_stock_price t period p).current_price = some cp) ∧
      (i.currentPrice = none →
        (get_stock_price t period p).current_price =
          h.closeCol.bind fun closes => (dropna closes).getLast?) ∧
      (∀ ps, (get_stock_price t period p).price_summary = some ps →
        ∃ closes, h.closeCol = some closes ∧ dropna closes ≠ [] ∧
          ps.period_candles = closes.length) ∧
      (∀ closes, h.closeCol = some closes → dropna closes ≠ [] →
        (get_stock_price t period p).price_summary.map
          PriceSummary.period_candles = some closes.length)) := by
  constructor
  · cases p with
    | error e => simp [get_stock_price, _stock_error]
    | ok v =>
      obtain ⟨i, hist⟩ := v
      cases hist with
      | none => simp [get_stock_price, _stock_error]
      | some h =>
        by_cases hemp : h.isEmpty = true
        · simp [get_stock_price, _stock_error, hemp]
          exact ⟨i, h, ⟨rfl, rfl⟩, hemp⟩
        · simp [get_stock_price, hemp]
  · intro i h heq hemp
    subst heq
    refine ⟨?_, ?_, ?_, ?_⟩
    · intro cp hcp
      simp [get_stock_price, hemp, hcp]
    · intro hnone
      cases hcc : h.closeCol with
      | none => simp [get_stock_price, hemp, hnone, hcc]
      | some closes => simp [get_stock_price, hemp, hnone, hcc]
    · intro ps hps
      cases hcc : h.closeCol with
      | none => simp [get_stock_price, hemp, hcc] at hps
      | some closes =>
        cases hdn : dropna closes with
        | nil => simp [get_stock_price, hemp, hcc, hdn] at hps
        | cons a l =>
          simp [get_stock_price, hemp, hcc, hdn] at hps
          refine ⟨closes, rfl, by simp [hdn], ?_⟩
          rw [← hps]
    · intro closes hcc hdn
      cases hdnE : dropna closes with
      | nil => exact absurd hdnE hdn
      | cons a l => simp [get_stock_price, hemp, hcc, hdnE]

/-- C1 witness: no provider price, one null and one non-null close; the
current price falls back to the last non-null close. -/
theorem claim_C1_stock_price_shape_witness :
    (get_stock_price "AAPL" "1mo"
      (.ok (⟨none⟩, some ⟨some [none, some 3], 0⟩))).current_price =
      some 3 := by
  have h := (claim_C1_stock_price_shape "AAPL" "1mo"
      (.ok (⟨none⟩, some ⟨some [none, some 3], 0⟩))).2
      ⟨none⟩ ⟨some [none, some 3], 0⟩ rfl (by decide)
  rw [h.2.1 rfl]
  decide

/-- C1 counterexample to the claim as stated: with one null close among
two rows, the call succeeds with `period_candles = 2` although only one
closing value is non-null; and with a single all-null close column and no
provider price, the call succeeds with `current_price` null rather than a
number. -/
theorem claim_C1_counterexample :
    ((get_stock_price "AAPL" "1mo"
        (.ok (⟨none⟩, some ⟨some [none, some 3], 0⟩))).success = true ∧
      (get_stock_price "AAPL" "1mo"
        (.ok (⟨none⟩, some ⟨some [none, some 3], 0⟩))).price_summary.map
        PriceSummary.period_candles = some 2 ∧
      (dropna [none, some 3]).length = 1) ∧
    ((get_stock_price "AAPL" "1mo"
        (.ok (⟨none⟩, some ⟨some [none], 0⟩))).success = true ∧
      (get_stock_price "AAPL" "1mo"
        (.ok (⟨none⟩, some ⟨some [none], 0⟩))).current_price = none) := by
  decide

/-- C2 (amended): for a price history whose first and last non-null closes
agree and whose first non-null close is non-zero, `change_pct` is exactly
0; whenever the first non-null close is 0, `change_pct` is null (the
division is guarded). -/
theorem claim_C2_change_pct (t period : String) (i : PriceInfo)
    (h : StockHistory) (closes : List (Option ℚ)) (c c2 : ℚ)
    (hcl : h.closeCol = some closes)
    (hfirst : (dropna closes).head? = some c)
    (hlast : (dropna closes).getLast? = some c2) :
    (c = c2 → c ≠ 0 →
      (get_stock_price t period (.ok (i, some h))).price_summary.map
        PriceSummary.change_pct = some (some 0)) ∧
    (c = 0 →
      (get_stock_price t period (.ok (i, some h))).price_summary.map
        PriceSummary.change_pct = some none) := by
  cases hdn : dropna closes with
  | nil => rw [hdn] at hfirst; exact absurd hfirst (by simp)
  | cons a l =>
    rw [hdn] at hfirst hlast
    have hac : a = c := by simpa using hfirst
    subst hac
    have hcne : closes ≠ [] := by
      intro hcE
      rw [hcE] at hdn
      simp [dropna] at hdn
    have hemp : h.isEmpty = false := by
      simp only [StockHistory.isEmpty, StockHistory.numRows, hcl]
      rw [beq_eq_false_iff_ne]
      simp [List.length_eq_zero, hcne]
    constructor
    · intro h12 hc0
      simp [get_stock_price, hemp, hcl, hdn, hc0]
      rw [hlast]
      simp [h12]
    · intro hc0
      simp [get_stock_price, hemp, hcl, hdn, hc0]

/-- C2 witness: a flat series at a non-zero price has `change_pct` exactly
0. -/
theorem claim_C2_change_pct_witness :
    (get_stock_price "AAPL" "1mo"
      (.ok (⟨none⟩, some ⟨some [some 2, some 2], 0⟩))).price_summary.map
      PriceSummary.change_pct = some (some 0) :=
  (claim_C2_change_pct "AAPL" "1mo" ⟨none⟩ ⟨some [some 2, some 2], 0⟩
    [some 2, some 2] 2 2 rfl (by decide) (by decide)).1 rfl (by decide)

/-- C2 counterexample to the claim as stated: a series flat at price 0 has
equal first and last non-null closes, yet `change_pct` is null rather than
exactly 0 (the zero guard fires first). -/
theorem claim_C2_counterexample :
    (dropna [some (0 : ℚ), some 0]).head? = some 0 ∧
    (dropna [some (0 : ℚ), some 0]).getLast? = some 0 ∧
    (get_stock_price "AAPL" "1mo"
      (.ok (⟨none⟩, some ⟨some [some 0, some 0], 0⟩))).price_summary.map
      PriceSummary.change_pct = some none := by
  decide

theorem composeReport_split (summary a b c d : String) :
    composeReport summary a b c d =
      "\n        " ++ ("# 요약 및 투자 조언" ++ ("\n        " ++ (summary ++
      ("\n\n        " ++ ("## 섹터 애널리스트 리포트" ++ ("\n        " ++ (a ++
      ("\n\n        " ++ ("## 데이터 애널리스트 리포트" ++ ("\n        " ++ (b ++
      ("\n\n        " ++ ("## 재무 애널리스트 리포트" ++ ("\n        " ++ (c ++
      ("\n        \n        " ++ ("## 뉴스 애널리스트 리포트" ++ ("\n        " ++
      (d ++ "\n    "))))))))))))))))))) := by
  have f1 : ("\n        # 요약 및 투자 조언\n        " : String) =
      "\n        " ++ "# 요약 및 투자 조언" ++ "\n        " := by decide
  have f2 : ("\n\n        ## 섹터 애널리스트 리포트\n        " : String) =
      "\n\n        " ++ "## 섹터 애널리스트 리포트" ++ "\n        " := by decide
  have f3 : ("\n\n        ## 데이터 애널리스트 리포트\n        " : String) =
      "\n\n        " ++ "## 데이터 애널리스트 리포트" ++ "\n        " := by decide
  have f4 : ("\n\n        ## 재무 애널리스트 리포트\n        " : String) =
      "\n\n        " ++ "## 재무 애널리스트 리포트" ++ "\n        " := by decide
  have f5 : ("\n        \n        ## 뉴스 애널리스트 리포트\n        " : String) =
      "\n        \n        " ++ "## 뉴스 애널리스트 리포트" ++ "\n        " := by
    decide
  simp only [composeReport, f1, f2, f3, f4, f5, String.append_assoc]

theorem composeReport_inOrder (summary a b c d : String) :
    inOrder ["# 요약 및 투자 조언".toList, summary.toList,
      "## 섹터 애널리스트 리포트".toList, a.toList,
      "## 데이터 애널리스트 리포트".toList, b.toList,
      "## 재무 애널리스트 리포트".toList, c.toList,
      "## 뉴스 애널리스트 리포트".toList, d.toList]
      (composeReport summary a b c d).toList = true := by
  rw [composeReport_split]
  simp only [toList_append]
  apply inOrder_extend
  apply inOrder_cons_self
  apply inOrder_extend
  apply inOrder_cons_self
  apply inOrder_extend
  apply inOrder_cons_self
  apply inOrder_extend
  apply inOrder_cons_self
  apply inOrder_extend
  apply inOrder_cons_self
  apply inOrder_extend
  apply inOrder_cons_self
  apply inOrder_extend
  apply inOrder_cons_self
  apply inOrder_extend
  apply inOrder_cons_self
  apply inOrder_extend
  apply inOrder_cons_self
  apply inOrder_extend
  apply inOrder_cons_self
  rfl

/-- C8: with summary `"Buy"`, ticker `"AAPL"` and all four analyst state
entries set to non-empty strings, the composed document contains, in this
order, the summary heading, the summary, then the sector, data, financial
and news headings, each followed by the corresponding stored text; and the
persisted artifact is `AAPL_investment_advice.md` with the document's
UTF-8 bytes and the markdown MIME type. -/
theorem claim_C8_report_document (state : String → Option String)
    (persist : Except String Unit) (s1 s2 s3 s4 : String)
    (h1 : state "sector_analyst_result" = some s1)
    (h2 : state "data_analyst_result" = some s2)
    (h3 : state "financial_analyst_result" = some s3)
    (h4 : state "news_analyst_result" = some s4)
    (n1 : s1 ≠ "") (n2 : s2 ≠ "") (n3 : s3 ≠ "") (n4 : s4 ≠ "") :
    (save_advice_report state "Buy" "AAPL" persist).artifact.filename =
      "AAPL_investment_advice.md" ∧
    (save_advice_report state "Buy" "AAPL" persist).artifact.mime_type =
      "text/markdown" ∧
    (save_advice_report state "Buy" "AAPL" persist).artifact.data =
      (composeReport "Buy" s1 s2 s3 s4).toUTF8 ∧
    inOrder ["# 요약 및 투자 조언".toList, "Buy".toList,
      "## 섹터 애널리스트 리포트".toList, s1.toList,
      "## 데이터 애널리스트 리포트".toList, s2.toList,
      "## 재무 애널리스트 리포트".toList, s3.toList,
      "## 뉴스 애널리스트 리포트".toList, s4.toList]
      (composeReport "Buy" s1 s2 s3 s4).toList = true := by
  refine ⟨?_, rfl, ?_, composeReport_inOrder "Buy" s1 s2 s3 s4⟩
  · have hf : (save_advice_report state "Buy" "AAPL" persist).artifact.filename =
        "AAPL" ++ "_investment_advice.md" := rfl
    rw [hf]
    decide
  · simp [save_advice_report, h1, h2, h3, h4, renderVal]

/-- C8 witness: a concrete state carrying all four analyst texts. -/
theorem claim_C8_report_document_witness :
    (save_advice_report
        (fun k =>
          if k = "sector_analyst_result" then some "S"
          else if k = "data_analyst_result" then some "D"
          else if k = "financial_analyst_result" then some "F"
          else if k = "news_analyst_result" then some "N"
          else none)
        "Buy" "AAPL" (.ok ())).artifact.filename =
      "AAPL_investment_advice.md" := by
  have h := claim_C8_report_document
      (fun k =>
        if k = "sector_analyst_result" then some "S"
        else if k = "data_analyst_result" then some "D"
        else if k = "financial_analyst_result" then some "F"
        else if k = "news_analyst_result" then some "N"
        else none)
      (.ok ()) "S" "D" "F" "N" rfl rfl rfl rfl
      (by decide) (by decide) (by decide) (by decide)
  exact h.1
